import Mathlib

/-!
Verification of the task-manager web application (`src/script.py`).

The script is a Flask application that authenticates a user with Google
OAuth, keeps the token and profile in the cookie session, and performs
list / insert / delete operations against the Google Calendar API.

The shallow embedding below models:
  * the session dictionary (keys `user_token` and `user`),
  * `build_calendar_service` including the google-auth `Credentials`
    object and its `expired` check,
  * the `/tasks` handler (GET listing and POST creation, with the
    `strptime` parse, the pytz Asia/Kolkata localisation and the
    conversion to UTC),
  * the `/delete/<task_id>` handler and `/logout`.

Remote effects are made explicit: every handler returns, besides its
HTTP response, the list of remote calls it issued, and the session it
leaves behind.  Results of remote calls are supplied as parameters
(`Except String _`), mirroring the `try/except` blocks of the script.
-/

namespace OAuthTasks

/-- A naive datetime as produced by `datetime.strptime` (no tzinfo):
calendar fields only.  Fields are integers; validity is a separate
predicate, mirroring the range checks done by `strptime` and the
`datetime` constructor. -/
structure DateTime where
  year : Int
  month : Int
  day : Int
  hour : Int
  minute : Int
  second : Int
deriving DecidableEq, Repr

/-- Gregorian leap-year test, as used by Python `calendar`/`datetime`. -/
def isLeap (y : Int) : Bool :=
  (y % 4 == 0 && y % 100 != 0) || y % 400 == 0

/-- Length of a month in the proleptic Gregorian calendar. -/
def daysInMonth (y m : Int) : Int :=
  if m = 2 then (if isLeap y then 29 else 28)
  else if m = 4 ∨ m = 6 ∨ m = 9 ∨ m = 11 then 30
  else 31

/-- Days from the start of the year to the start of month `m`. -/
def daysBeforeMonth (leap : Bool) (m : Int) : Int :=
  (if m ≤ 1 then 0
   else if m = 2 then 31
   else if m = 3 then 59
   else if m = 4 then 90
   else if m = 5 then 120
   else if m = 6 then 151
   else if m = 7 then 181
   else if m = 8 then 212
   else if m = 9 then 243
   else if m = 10 then 273
   else if m = 11 then 304
   else 334)
  + (if 3 ≤ m ∧ leap then 1 else 0)

/-- Days since the Unix epoch (1970-01-01) of a calendar date, via the
proleptic Gregorian count; 719162 is the number of days from 0001-01-01
to 1970-01-01. -/
def dayNumber (y m d : Int) : Int :=
  365 * (y - 1) + (y - 1) / 4 - (y - 1) / 100 + (y - 1) / 400
  + daysBeforeMonth (isLeap y) m + (d - 1) - 719162

/-- Days since the Unix epoch of a datetime's calendar date. -/
def toDays (dt : DateTime) : Int :=
  dayNumber dt.year dt.month dt.day

/-- Seconds since the Unix epoch of a naive datetime read as UTC. -/
def toEpochSec (dt : DateTime) : Int :=
  toDays dt * 86400 + dt.hour * 3600 + dt.minute * 60 + dt.second

/-- Validity of a datetime: the ranges enforced by the parse and by the
`datetime` constructor (year 1..9999, month 1..12, day within the
month, time fields in range). -/
def ValidDT (dt : DateTime) : Prop :=
  1 ≤ dt.year ∧ dt.year ≤ 9999 ∧ 1 ≤ dt.month ∧ dt.month ≤ 12 ∧
  1 ≤ dt.day ∧ dt.day ≤ daysInMonth dt.year dt.month ∧
  0 ≤ dt.hour ∧ dt.hour ≤ 23 ∧ 0 ≤ dt.minute ∧ dt.minute ≤ 59 ∧
  0 ≤ dt.second ∧ dt.second ≤ 59

instance : DecidablePred ValidDT := fun dt => by
  unfold ValidDT; infer_instance

/-- The calendar date one day before `(year, month, day)`, as computed
by `datetime` arithmetic when a `timedelta` subtraction borrows a day. -/
def prevDay (dt : DateTime) : Int × Int × Int :=
  if 1 < dt.day then (dt.year, dt.month, dt.day - 1)
  else if 1 < dt.month then (dt.year, dt.month - 1, daysInMonth dt.year (dt.month - 1))
  else (dt.year - 1, 12, 31)

/-- Subtract `off` minutes (0 < off ≤ 1440) from a naive datetime, with
the day borrow of `datetime - timedelta(minutes=off)`. -/
def subMinutes (dt : DateTime) (off : Int) : DateTime :=
  let t := dt.hour * 60 + dt.minute
  if off ≤ t then
    { dt with hour := (t - off) / 60, minute := (t - off) % 60 }
  else
    let p := prevDay dt
    let t2 := t + 1440 - off
    { year := p.1, month := p.2.1, day := p.2.2,
      hour := t2 / 60, minute := t2 % 60, second := dt.second }

/-- A date packed as `yyyymmdd`, so that integer order agrees with
calendar order on valid dates. -/
def dateIdx (y m d : Int) : Int := y * 10000 + m * 100 + d

/-- Modelled pytz behaviour for `pytz.timezone("Asia/Kolkata")`: the
UTC offset, in minutes, that `localize` attaches to a naive local
datetime.  India Standard Time is UTC+5:30; during the two wartime
daylight windows of the tz database (1941-10-01 to 1942-05-15 and
1942-09-01 to 1945-10-15) the offset was UTC+6:30.  The pre-1906
historical local-mean-time offsets are outside the range of interest
and are not modelled. -/
def kolkataOffset (dt : DateTime) : Int :=
  if (19411001 ≤ dateIdx dt.year dt.month dt.day ∧
        dateIdx dt.year dt.month dt.day < 19420515) ∨
     (19420901 ≤ dateIdx dt.year dt.month dt.day ∧
        dateIdx dt.year dt.month dt.day < 19451015)
  then 390 else 330

/-- An aware datetime: wall-clock fields together with the UTC offset
in minutes carried by its tzinfo. -/
def AwareDT := DateTime × Int

/-- Model of `local_tz.localize(local_time)` for Asia/Kolkata: attach the zone
offset to the naive datetime without changing the wall clock. -/
def localizeKolkata (dt : DateTime) : AwareDT := (dt, kolkataOffset dt)

/-- Model of `aware.astimezone(pytz.utc)`: keep the instant, re-express the wall
clock in UTC (subtract the offset), and attach offset 0. -/
def astimezoneUtc (a : AwareDT) : AwareDT := (subMinutes a.1 a.2, 0)

/-- The instant an aware datetime denotes, in seconds since the epoch:
its wall clock read as UTC, minus its offset. -/
def instantOf (a : AwareDT) : Int := toEpochSec a.1 - a.2 * 60

/-- Numeric value of a decimal digit character. -/
def digitVal (c : Char) : Int := Int.ofNat (c.toNat - 48)

/-- Shape of a local datetime string without seconds, the wire format
of an HTML datetime-local control: `YYYY-MM-DDTHH:MM`. -/
def noSecondsShape : List Char → Bool
  | [y1, y2, y3, y4, a, m1, m2, b, d1, d2, t, h1, h2, c, i1, i2] =>
    y1.isDigit && y2.isDigit && y3.isDigit && y4.isDigit && a == '-' &&
    m1.isDigit && m2.isDigit && b == '-' && d1.isDigit && d2.isDigit &&
    t == 'T' && h1.isDigit && h2.isDigit && c == ':' && i1.isDigit && i2.isDigit
  | _ => false

/-- Shape of a local datetime string with seconds: `YYYY-MM-DDTHH:MM:SS`. -/
def withSecondsShape : List Char → Bool
  | [y1, y2, y3, y4, a, m1, m2, b, d1, d2, t, h1, h2, c, i1, i2, e, s1, s2] =>
    y1.isDigit && y2.isDigit && y3.isDigit && y4.isDigit && a == '-' &&
    m1.isDigit && m2.isDigit && b == '-' && d1.isDigit && d2.isDigit &&
    t == 'T' && h1.isDigit && h2.isDigit && c == ':' && i1.isDigit && i2.isDigit &&
    e == ':' && s1.isDigit && s2.isDigit
  | _ => false

/-- The seconds-defaulting step of the POST handler: a 16-character due
date (the no-seconds datetime-local format) gets a `:00` appended. -/
def normalizeDue (s : String) : String :=
  if s.length = 16 then s ++ ":00" else s

/-- The numeric datetime decoded from the 14 digit characters of a
`YYYY-MM-DDTHH:MM:SS` string. -/
def decodeFields (y1 y2 y3 y4 m1 m2 d1 d2 h1 h2 i1 i2 s1 s2 : Char) : DateTime :=
  { year := 1000 * digitVal y1 + 100 * digitVal y2 + 10 * digitVal y3 + digitVal y4,
    month := 10 * digitVal m1 + digitVal m2,
    day := 10 * digitVal d1 + digitVal d2,
    hour := 10 * digitVal h1 + digitVal h2,
    minute := 10 * digitVal i1 + digitVal i2,
    second := 10 * digitVal s1 + digitVal s2 }

/-- The range validation `strptime` and the `datetime` constructor
apply to the decoded fields: month, hour, minute, second ranges and a
nonzero day come from the strptime field patterns; year 0 and a day
beyond the month length are `datetime` constructor errors. -/
def checkRanges (dt : DateTime) (s : String) : Except String DateTime :=
  if 1 ≤ dt.month ∧ dt.month ≤ 12 ∧ 1 ≤ dt.day ∧ dt.hour ≤ 23 ∧
     dt.minute ≤ 59 ∧ dt.second ≤ 59 then
    if dt.year = 0 then .error "year 0 is out of range"
    else if daysInMonth dt.year dt.month < dt.day then
      .error "day is out of range for month"
    else .ok dt
  else .error ("time data " ++ s ++ " does not match format %Y-%m-%dT%H:%M:%S")

/-- Model of `datetime.strptime(s, "%Y-%m-%dT%H:%M:%S")` on the
zero-padded fixed-width format the handler passes to it: shape
mismatches raise the strptime format error, then the decoded fields
are range-checked. -/
def strptime (s : String) : Except String DateTime :=
  match s.data with
  | [y1, y2, y3, y4, a, m1, m2, b, d1, d2, t, h1, h2, c, i1, i2, e, s1, s2] =>
    if y1.isDigit && y2.isDigit && y3.isDigit && y4.isDigit && a == '-' &&
       m1.isDigit && m2.isDigit && b == '-' && d1.isDigit && d2.isDigit &&
       t == 'T' && h1.isDigit && h2.isDigit && c == ':' && i1.isDigit && i2.isDigit &&
       e == ':' && s1.isDigit && s2.isDigit then
      checkRanges (decodeFields y1 y2 y3 y4 m1 m2 d1 d2 h1 h2 i1 i2 s1 s2) s
    else .error ("time data " ++ s ++ " does not match format %Y-%m-%dT%H:%M:%S")
  | _ => .error ("time data " ++ s ++ " does not match format %Y-%m-%dT%H:%M:%S")

/-- Decimal rendering of a nonnegative integer, zero-padded to width 2. -/
def pad2 (n : Int) : String :=
  if n < 10 then "0" ++ toString n else toString n

/-- Decimal rendering of a nonnegative integer, zero-padded to width 4. -/
def pad4 (n : Int) : String :=
  if n < 10 then "000" ++ toString n
  else if n < 100 then "00" ++ toString n
  else if n < 1000 then "0" ++ toString n
  else toString n

/-- Rendering of `utc_time.isoformat()` for an aware UTC datetime with zero
microseconds: `YYYY-MM-DDTHH:MM:SS+00:00`. -/
def isoUtc (dt : DateTime) : String :=
  pad4 dt.year ++ "-" ++ pad2 dt.month ++ "-" ++ pad2 dt.day ++ "T" ++
  pad2 dt.hour ++ ":" ++ pad2 dt.minute ++ ":" ++ pad2 dt.second ++ "+00:00"

/-- The token dictionary authlib stores in `session["user_token"]`:
access token, optional refresh token, and the expiry metadata
(`expires_at`, seconds since the epoch) that authlib records. -/
structure TokenData where
  access_token : String
  refresh_token : Option String
  expires_at : Option Int
deriving DecidableEq, Repr

/-- The profile dictionary stored in `session["user"]`. -/
structure UserInfo where
  name : String
  email : String
deriving DecidableEq, Repr

/-- The cookie session: the two keys the script reads and writes. -/
structure Session where
  user_token : Option TokenData
  user : Option UserInfo
deriving DecidableEq, Repr

/-- The google-auth `Credentials` object as constructed by
`build_calendar_service`: token, refresh token and the `expiry`
attribute consulted by `Credentials.expired`. -/
structure Credentials where
  token : String
  refresh_token : Option String
  expiry : Option Int
deriving DecidableEq, Repr

/-- google-auth `Credentials.expired`: false when no `expiry` is set,
otherwise a comparison of the current time against the expiry. -/
def Credentials.expired (c : Credentials) (now : Int) : Bool :=
  match c.expiry with
  | none => false
  | some e => decide (e ≤ now)

/-- The calendar API client returned by `build("calendar", "v3", ...)`,
carrying the credentials it will authorize requests with. -/
structure CalendarService where
  credentials : Credentials
deriving DecidableEq, Repr

/-- A remote-event time field: the `dateTime`/`timeZone` pair of the
event body sent to the calendar API. -/
structure EventTime where
  dateTime : String
  timeZone : String
deriving DecidableEq, Repr

/-- The event body the POST handler inserts.  The source dictionary
keys are `summary`, `description`, `start`, `end`; `end` is a reserved
word in Lean, hence the quoted field name. -/
structure GCalEvent where
  summary : String
  description : String
  start : EventTime
  «end» : EventTime
deriving DecidableEq, Repr

/-- An event item returned by the list call.  `summary`, `description`
and the nested `start.dateTime` are read with defaulting `get`s; `id`
is read unconditionally. -/
structure GEvent where
  summary : Option String
  description : Option String
  startDateTime : Option String
  id : String
deriving DecidableEq, Repr

/-- A task row rendered on the task page. -/
structure TaskView where
  summary : String
  description : String
  start : String
  id : String
deriving DecidableEq, Repr

/-- The dictionary built from a listed event (with the defaults
`No Title`, `No Description`, `No Start Time`). -/
def taskView (ev : GEvent) : TaskView :=
  { summary := ev.summary.getD "No Title",
    description := ev.description.getD "No Description",
    start := ev.startDateTime.getD "No Start Time",
    id := ev.id }

/-- A remote call issued during a request: the token refresh, or one of
the three calendar operations with exactly the arguments the script
passes. -/
inductive RemoteCall where
  | refresh : RemoteCall
  | insert (calendarId : String) (body : GCalEvent) : RemoteCall
  | list (calendarId : String) (timeMin : String) (maxResults : Nat)
      (singleEvents : Bool) (orderBy : String) : RemoteCall
  | delete (calendarId : String) (eventId : String) : RemoteCall
deriving DecidableEq, Repr

/-- An HTTP response of the modelled handlers: a redirect, a plain
string body, or the rendered task template with its task rows and
optional message slot. -/
inductive Response where
  | redirect (location : String) : Response
  | text (body : String) : Response
  | tasksPage (tasks : List TaskView) (message : Option String) : Response
deriving DecidableEq, Repr

/-- Everything a handler produces: the response, the remote calls it
issued in order, and the session it leaves behind. -/
structure HandlerResult where
  resp : Response
  calls : List RemoteCall
  sessionAfter : Session
deriving DecidableEq, Repr

/-- Model of `build_calendar_service()`: `None` when the session has no
`user_token`; otherwise a `Credentials` object built from the session
token — with no `expiry` argument — refreshed when `expired` and a
refresh token is present (the refresh being a remote token-endpoint
call), then wrapped in a service.  The refreshed access-token string
comes from the remote response and is not observed by anything the
handlers do afterwards, so the call is recorded and the credential kept
abstractly. -/
def buildCalendarService (s : Session) (now : Int) :
    Option CalendarService × List RemoteCall :=
  match s.user_token with
  | none => (none, [])
  | some tok =>
    let c : Credentials :=
      { token := tok.access_token, refresh_token := tok.refresh_token, expiry := none }
    if c.expired now && c.refresh_token.isSome then
      (some { credentials := c }, [RemoteCall.refresh])
    else
      (some { credentials := c }, [])

/-- Route `/logout`: pop both session keys and redirect home. -/
def logout (s : Session) : Session × Response :=
  ({ s with user := none, user_token := none }, Response.redirect "/")

/-- GET `/tasks`: rebuild the service (redirecting to login without a
token), then list upcoming events — `timeMin` the current UTC time in
ISO form, at most 10 results, single events, ordered by start time —
rendering the rows on success and a plain error string on failure.
`nowIso` stands for `datetime.now(timezone.utc).isoformat()` and
`listRes` for the outcome of the remote list call. -/
def tasksGet (s : Session) (now : Int) (nowIso : String)
    (listRes : Except String (List GEvent)) : HandlerResult :=
  match buildCalendarService s now with
  | (none, _) => { resp := Response.redirect "/login", calls := [], sessionAfter := s }
  | (some _, bcalls) =>
    let call := RemoteCall.list "primary" nowIso 10 true "startTime"
    match listRes with
    | .ok evs =>
      { resp := Response.tasksPage (evs.map taskView) none,
        calls := bcalls ++ [call], sessionAfter := s }
    | .error e =>
      { resp := Response.text ("Error fetching tasks: " ++ e),
        calls := bcalls ++ [call], sessionAfter := s }

/-- POST `/tasks`: rebuild the service (redirecting to login without a
token), default the seconds of the due date, parse and convert it to
UTC — returning `Error: ...` on a parse failure, before any insert —
then insert the zero-duration event and re-render the page with an
empty task list and a success or failure message.  `insertRes` stands
for the outcome of the remote insert call. -/
def tasksPost (s : Session) (now : Int) (title description due : String)
    (insertRes : Except String Unit) : HandlerResult :=
  match buildCalendarService s now with
  | (none, _) => { resp := Response.redirect "/login", calls := [], sessionAfter := s }
  | (some _, bcalls) =>
    let due2 := normalizeDue due
    match strptime due2 with
    | .error e =>
      { resp := Response.text ("Error: " ++ e), calls := bcalls, sessionAfter := s }
    | .ok dt =>
      let utc := astimezoneUtc (localizeKolkata dt)
      let iso := isoUtc utc.1
      let ev : GCalEvent :=
        { summary := title, description := description,
          start := { dateTime := iso, timeZone := "UTC" },
          «end» := { dateTime := iso, timeZone := "UTC" } }
      let msg := match insertRes with
        | .ok _ => "Task added successfully!"
        | .error e => "Error adding task: " ++ e
      { resp := Response.tasksPage [] (some msg),
        calls := bcalls ++ [RemoteCall.insert "primary" ev], sessionAfter := s }

/-- Route `/delete/<task_id>`: rebuild the service (redirecting to login
without a token), issue the remote delete, and redirect to `/tasks`
with the outcome message in the query string.  `delRes` stands for the
outcome of the remote delete call. -/
def deleteTask (s : Session) (now : Int) (taskId : String)
    (delRes : Except String Unit) : HandlerResult :=
  match buildCalendarService s now with
  | (none, _) => { resp := Response.redirect "/login", calls := [], sessionAfter := s }
  | (some _, bcalls) =>
    let msg := match delRes with
      | .ok _ => "Task deleted successfully!"
      | .error e => "Error deleting task: " ++ e
    { resp := Response.redirect ("/tasks?message=" ++ msg),
      calls := bcalls ++ [RemoteCall.delete "primary" taskId], sessionAfter := s }

/-- Whether an exception message is surfaced on the page the user gets
back: either the response is a plain string body containing it, or the
rendered task page carries it in its message slot. -/
def messageSurfaced (r : Response) (e : String) : Prop :=
  (∃ b, r = Response.text b ∧ e.data <:+: b.data) ∨
  (∃ ts m, r = Response.tasksPage ts (some m) ∧ e.data <:+: m.data)

/-! ### Helper lemmas -/

theorem daysBeforeMonth_step (y m : Int) (h1 : 2 ≤ m) (h2 : m ≤ 12) :
    daysBeforeMonth (isLeap y) m
      = daysBeforeMonth (isLeap y) (m - 1) + daysInMonth y (m - 1) := by
  interval_cases m <;>
    cases hL : isLeap y <;>
      simp [daysBeforeMonth, daysInMonth, hL]

theorem dayNumber_prevDay (dt : DateTime) (h : ValidDT dt) (h2 : 2 ≤ dt.year) :
    dayNumber (prevDay dt).1 (prevDay dt).2.1 (prevDay dt).2.2
      = dayNumber dt.year dt.month dt.day - 1 := by
  obtain ⟨hy1, hy2, hm1, hm2, hd1, hd2, _⟩ := h
  unfold prevDay
  split
  · -- day > 1: same month, previous day
    simp only [dayNumber]
    omega
  · split
    · -- day = 1, month > 1: last day of the previous month
      rename_i hdne hmgt
      have hd : dt.day = 1 := by omega
      have hstep := daysBeforeMonth_step dt.year dt.month (by omega) hm2
      simp only [dayNumber]
      omega
    · -- day = 1, month = 1: December 31 of the previous year
      rename_i hdne hmne
      have hd : dt.day = 1 := by omega
      have hm : dt.month = 1 := by omega
      have h1' : daysBeforeMonth (isLeap dt.year) 1 = 0 := by
        cases hL2 : isLeap dt.year <;> simp [daysBeforeMonth, hL2]
      cases hL : isLeap (dt.year - 1)
      · have h12 : daysBeforeMonth (isLeap (dt.year - 1)) 12 = 334 := by
          rw [hL]; simp [daysBeforeMonth]
        simp [isLeap] at hL
        simp only [dayNumber, hd, hm, h12, h1']
        omega
      · have h12 : daysBeforeMonth (isLeap (dt.year - 1)) 12 = 335 := by
          rw [hL]; simp [daysBeforeMonth]
        simp [isLeap] at hL
        simp only [dayNumber, hd, hm, h12, h1']
        omega

theorem toEpochSec_subMinutes (dt : DateTime) (off : Int) (h : ValidDT dt)
    (h2 : 2 ≤ dt.year) (ho1 : 0 < off) (ho2 : off ≤ 1440) :
    toEpochSec (subMinutes dt off) = toEpochSec dt - off * 60 := by
  have hv := h
  obtain ⟨hy1, hy2, hm1, hm2, hd1, hd2, hh1, hh2, hi1, hi2, hs1, hs2⟩ := hv
  have hprev := dayNumber_prevDay dt h h2
  simp only [subMinutes]
  split
  · -- no day borrow
    simp only [toEpochSec, toDays]
    omega
  · -- borrow one day
    simp only [toEpochSec, toDays]
    omega

theorem kolkataOffset_bounds (dt : DateTime) :
    0 < kolkataOffset dt ∧ kolkataOffset dt ≤ 1440 := by
  unfold kolkataOffset
  split <;> norm_num

theorem digitVal_bounds (c : Char) (h : c.isDigit = true) :
    0 ≤ digitVal c ∧ digitVal c ≤ 9 := by
  simp [Char.isDigit] at h
  obtain ⟨h1, h2⟩ := h
  have h3 : c.toNat ≤ 57 := h2
  constructor
  · exact Int.ofNat_nonneg _
  · simp only [digitVal, Int.ofNat_eq_natCast]; omega

theorem checkRanges_ok (dt dt2 : DateTime) (s : String)
    (hp : checkRanges dt s = .ok dt2) :
    dt2 = dt ∧ 1 ≤ dt.month ∧ dt.month ≤ 12 ∧ 1 ≤ dt.day ∧
    dt.day ≤ daysInMonth dt.year dt.month ∧ dt.year ≠ 0 ∧
    dt.hour ≤ 23 ∧ dt.minute ≤ 59 ∧ dt.second ≤ 59 := by
  unfold checkRanges at hp
  split at hp
  · split at hp
    · exact absurd hp (by simp)
    · split at hp
      · exact absurd hp (by simp)
      · rename_i hrange hy0 hday
        injection hp with hp
        subst hp
        obtain ⟨h1, h2, h3, h4, h5, h6⟩ := hrange
        exact ⟨rfl, h1, h2, h3, by omega, hy0, h4, h5, h6⟩
  · exact absurd hp (by simp)

theorem strptime_ok_valid (s : String) (dt : DateTime)
    (hp : strptime s = .ok dt) : ValidDT dt := by
  unfold strptime at hp
  split at hp
  · rename_i y1 y2 y3 y4 a m1 m2 b d1 d2 t h1 h2 c i1 i2 e s1 s2 heq
    split at hp
    · rename_i hshape
      simp only [Bool.and_eq_true, beq_iff_eq] at hshape
      obtain ⟨⟨⟨⟨⟨⟨⟨⟨⟨⟨⟨⟨⟨⟨⟨⟨⟨⟨hy1, hy2⟩, hy3⟩, hy4⟩, ha⟩, hm1⟩, hm2⟩, hb⟩, hd1⟩, hd2⟩, ht⟩, hh1⟩, hh2⟩, hc⟩, hi1⟩, hi2⟩, he⟩, hs1⟩, hs2⟩ := hshape
      obtain ⟨hdt, hr1, hr2, hr3, hr4, hy0, hr5, hr6, hr7⟩ := checkRanges_ok _ _ _ hp
      subst hdt
      have B1 := digitVal_bounds _ hy1
      have B2 := digitVal_bounds _ hy2
      have B3 := digitVal_bounds _ hy3
      have B4 := digitVal_bounds _ hy4
      have B5 := digitVal_bounds _ hm1
      have B6 := digitVal_bounds _ hm2
      have B7 := digitVal_bounds _ hd1
      have B8 := digitVal_bounds _ hd2
      have B9 := digitVal_bounds _ hh1
      have B10 := digitVal_bounds _ hh2
      have B11 := digitVal_bounds _ hi1
      have B12 := digitVal_bounds _ hi2
      have B13 := digitVal_bounds _ hs1
      have B14 := digitVal_bounds _ hs2
      simp only [decodeFields] at hr1 hr2 hr3 hr4 hy0 hr5 hr6 hr7
      simp only [ValidDT, decodeFields]
      refine ⟨by omega, by omega, hr1, hr2, hr3, hr4, by omega, hr5, by omega, hr6,
        by omega, hr7⟩
    · exact absurd hp (by simp)
  · exact absurd hp (by simp)

theorem buildCalendarService_none (s : Session) (now : Int) (h : s.user_token = none) :
    buildCalendarService s now = (none, []) := by
  simp [buildCalendarService, h]

theorem buildCalendarService_some (s : Session) (tok : TokenData) (now : Int)
    (h : s.user_token = some tok) :
    buildCalendarService s now =
      (some { credentials :=
        { token := tok.access_token, refresh_token := tok.refresh_token, expiry := none } },
       []) := by
  simp [buildCalendarService, h, Credentials.expired]

theorem noSecondsShape_length (l : List Char) (h : noSecondsShape l = true) :
    l.length = 16 := by
  unfold noSecondsShape at h
  split at h
  · simp
  · exact absurd h (by simp)

theorem noSecondsShape_append (l : List Char) (h : noSecondsShape l = true) :
    withSecondsShape (l ++ [':', '0', '0']) = true := by
  unfold noSecondsShape at h
  split at h
  · simp only [List.cons_append, List.nil_append]
    unfold withSecondsShape
    simp only [Bool.and_eq_true, beq_iff_eq] at h ⊢
    exact ⟨⟨⟨h, trivial⟩, by decide⟩, by decide⟩
  · exact absurd h (by simp)

/-! ### Claims -/

/-- C1: a due-date string in the no-seconds local datetime form
`YYYY-MM-DDTHH:MM` (length 16) gets `:00` appended by the POST
handler's normalisation, so the string passed to `strptime` has the
form `YYYY-MM-DDTHH:MM:SS`. -/
theorem C1_normalize_appends_seconds (s : String) (h : noSecondsShape s.data = true) :
    normalizeDue s = s ++ ":00" ∧ withSecondsShape (normalizeDue s).data = true := by
  have hlen : s.length = 16 := noSecondsShape_length s.data h
  have hnorm : normalizeDue s = s ++ ":00" := by
    unfold normalizeDue
    rw [if_pos hlen]
  refine ⟨hnorm, ?_⟩
  rw [hnorm, String.data_append]
  have hdata : (":00" : String).data = [':', '0', '0'] := rfl
  rw [hdata]
  exact noSecondsShape_append s.data h

/-- C1 witness: the normalisation on a concrete datetime-local string. -/
theorem C1_normalize_appends_seconds_witness :
    noSecondsShape ("2025-03-09T18:45" : String).data = true ∧
    normalizeDue "2025-03-09T18:45" = "2025-03-09T18:45" ++ ":00" ∧
    withSecondsShape (normalizeDue "2025-03-09T18:45").data = true := by
  refine ⟨by decide, C1_normalize_appends_seconds "2025-03-09T18:45" (by decide)⟩

theorem noToken_redirects (s : Session) (now : Int)
    (nowIso title description due tid : String)
    (listRes : Except String (List GEvent)) (insRes delRes : Except String Unit)
    (h : s.user_token = none) :
    (tasksGet s now nowIso listRes).resp = Response.redirect "/login" ∧
    (tasksGet s now nowIso listRes).calls = [] ∧
    (tasksPost s now title description due insRes).resp = Response.redirect "/login" ∧
    (tasksPost s now title description due insRes).calls = [] ∧
    (deleteTask s now tid delRes).resp = Response.redirect "/login" ∧
    (deleteTask s now tid delRes).calls = [] := by
  simp [tasksGet, tasksPost, deleteTask, buildCalendarService_none s now h]

/-- C3: a request to GET `/tasks`, POST `/tasks` or `/delete/<id>`
whose session holds no user token gets a redirect to the login page,
with no remote call issued. -/
theorem C3_unauthenticated_redirects (s : Session) (now : Int)
    (nowIso title description due tid : String)
    (listRes : Except String (List GEvent)) (insRes delRes : Except String Unit)
    (h : s.user_token = none) :
    (tasksGet s now nowIso listRes).resp = Response.redirect "/login" ∧
    (tasksGet s now nowIso listRes).calls = [] ∧
    (tasksPost s now title description due insRes).resp = Response.redirect "/login" ∧
    (tasksPost s now title description due insRes).calls = [] ∧
    (deleteTask s now tid delRes).resp = Response.redirect "/login" ∧
    (deleteTask s now tid delRes).calls = [] :=
  noToken_redirects s now nowIso title description due tid listRes insRes delRes h

/-- C3 witness: the redirects on a concrete empty session. -/
theorem C3_unauthenticated_redirects_witness :
    (Session.mk none none).user_token = none ∧
    ((tasksGet (Session.mk none none) 0 "now" (.ok [])).resp = Response.redirect "/login" ∧
     (tasksGet (Session.mk none none) 0 "now" (.ok [])).calls = [] ∧
     (tasksPost (Session.mk none none) 0 "t" "d" "2025-03-09T18:45" (.ok ())).resp
        = Response.redirect "/login" ∧
     (tasksPost (Session.mk none none) 0 "t" "d" "2025-03-09T18:45" (.ok ())).calls = [] ∧
     (deleteTask (Session.mk none none) 0 "ev1" (.ok ())).resp = Response.redirect "/login" ∧
     (deleteTask (Session.mk none none) 0 "ev1" (.ok ())).calls = []) :=
  ⟨rfl, C3_unauthenticated_redirects (Session.mk none none) 0 "now" "t" "d"
    "2025-03-09T18:45" "ev1" (.ok []) (.ok ()) (.ok ()) rfl⟩

/-- C4: after `/logout` both session entries are gone, and a
subsequent request to any task route is redirected to login. -/
theorem C4_logout_clears_session (s : Session) (now : Int)
    (nowIso title description due tid : String)
    (listRes : Except String (List GEvent)) (insRes delRes : Except String Unit) :
    (logout s).1.user = none ∧
    (logout s).1.user_token = none ∧
    (tasksGet (logout s).1 now nowIso listRes).resp = Response.redirect "/login" ∧
    (tasksPost (logout s).1 now title description due insRes).resp
      = Response.redirect "/login" ∧
    (deleteTask (logout s).1 now tid delRes).resp = Response.redirect "/login" := by
  refine ⟨rfl, rfl, ?_⟩
  have h : (logout s).1.user_token = none := rfl
  have := noToken_redirects (logout s).1 now nowIso title description due tid
    listRes insRes delRes h
  exact ⟨this.1, this.2.2.1, this.2.2.2.2.1⟩

/-- C6: on a successfully parsed create request, the inserted event is
a zero-duration point event: start equals end, both carrying the
UTC-converted due date and the timezone field UTC. -/
theorem C6_zero_duration_event (s : Session) (tok : TokenData) (now : Int)
    (title description due : String) (insRes : Except String Unit) (dt : DateTime)
    (h : s.user_token = some tok) (hp : strptime (normalizeDue due) = .ok dt) :
    ∃ ev : GCalEvent,
      (tasksPost s now title description due insRes).calls
        = [RemoteCall.insert "primary" ev] ∧
      ev.start = ev.«end» ∧
      ev.start.dateTime = isoUtc (astimezoneUtc (localizeKolkata dt)).1 ∧
      ev.start.timeZone = "UTC" ∧ ev.«end».timeZone = "UTC" := by
  refine ⟨{ summary := title, description := description,
            start := { dateTime := isoUtc (astimezoneUtc (localizeKolkata dt)).1,
                       timeZone := "UTC" },
            «end» := { dateTime := isoUtc (astimezoneUtc (localizeKolkata dt)).1,
                       timeZone := "UTC" } },
         ?_, rfl, rfl, rfl, rfl⟩
  simp only [tasksPost, buildCalendarService_some s tok now h, hp]
  cases insRes <;> simp

/-- C6 witness: the inserted event on a concrete parsed request. -/
theorem C6_zero_duration_event_witness :
    (Session.mk (some (TokenData.mk "at" none none)) none).user_token
      = some (TokenData.mk "at" none none) ∧
    strptime (normalizeDue "2025-03-09T18:45")
      = .ok (DateTime.mk 2025 3 9 18 45 0) ∧
    ∃ ev : GCalEvent,
      (tasksPost (Session.mk (some (TokenData.mk "at" none none)) none) 0 "t" "d"
          "2025-03-09T18:45" (.ok ())).calls
        = [RemoteCall.insert "primary" ev] ∧
      ev.start = ev.«end» ∧
      ev.start.dateTime
        = isoUtc (astimezoneUtc (localizeKolkata (DateTime.mk 2025 3 9 18 45 0))).1 ∧
      ev.start.timeZone = "UTC" ∧ ev.«end».timeZone = "UTC" := by
  refine ⟨rfl, rfl, ?_⟩
  exact C6_zero_duration_event _ (TokenData.mk "at" none none) 0 "t" "d"
    "2025-03-09T18:45" (.ok ()) (DateTime.mk 2025 3 9 18 45 0) rfl rfl

/-- C7: the GET `/tasks` listing queries the primary calendar with
`timeMin` equal to the current UTC time, at most 10 results, single
events only, ordered by start time — and issues no other remote call. -/
theorem C7_list_query_params (s : Session) (tok : TokenData) (now : Int)
    (nowIso : String) (listRes : Except String (List GEvent))
    (h : s.user_token = some tok) :
    (tasksGet s now nowIso listRes).calls
      = [RemoteCall.list "primary" nowIso 10 true "startTime"] := by
  simp only [tasksGet, buildCalendarService_some s tok now h]
  cases listRes <;> simp

/-- C7 witness: the list call on a concrete authenticated GET. -/
theorem C7_list_query_params_witness :
    (Session.mk (some (TokenData.mk "at" none none)) none).user_token
      = some (TokenData.mk "at" none none) ∧
    (tasksGet (Session.mk (some (TokenData.mk "at" none none)) none) 0
        "2025-03-09T13:15:00+00:00" (.ok [])).calls
      = [RemoteCall.list "primary" "2025-03-09T13:15:00+00:00" 10 true "startTime"] :=
  ⟨rfl, C7_list_query_params _ (TokenData.mk "at" none none) 0
    "2025-03-09T13:15:00+00:00" (.ok []) rfl⟩

/-- C9: no task state survives between requests — every handler leaves
the session exactly as it found it — and the page rendered by an
authenticated GET shows precisely the rows of the list call made
during that same request. -/
theorem C9_stateless_fresh_fetch (s : Session) (tok : TokenData) (now : Int)
    (nowIso : String) (evs : List GEvent) (h : s.user_token = some tok) :
    (tasksGet s now nowIso (.ok evs)).resp
      = Response.tasksPage (evs.map taskView) none ∧
    RemoteCall.list "primary" nowIso 10 true "startTime"
      ∈ (tasksGet s now nowIso (.ok evs)).calls ∧
    (∀ (s2 : Session) (r : Except String (List GEvent)),
      (tasksGet s2 now nowIso r).sessionAfter = s2) ∧
    (∀ (s2 : Session) (title description due : String) (r : Except String Unit),
      (tasksPost s2 now title description due r).sessionAfter = s2) ∧
    (∀ (s2 : Session) (tid : String) (r : Except String Unit),
      (deleteTask s2 now tid r).sessionAfter = s2) := by
  refine ⟨?_, ?_, ?_, ?_, ?_⟩
  · simp [tasksGet, buildCalendarService_some s tok now h]
  · simp [tasksGet, buildCalendarService_some s tok now h]
  · intro s2 r
    cases h2 : s2.user_token with
    | none => simp [tasksGet, buildCalendarService_none s2 now h2]
    | some tok2 =>
      simp only [tasksGet, buildCalendarService_some s2 tok2 now h2]
      cases r <;> simp
  · intro s2 title description due r
    cases h2 : s2.user_token with
    | none => simp [tasksPost, buildCalendarService_none s2 now h2]
    | some tok2 =>
      simp only [tasksPost, buildCalendarService_some s2 tok2 now h2]
      cases hq : strptime (normalizeDue due) <;> cases r <;> simp [hq]
  · intro s2 tid r
    cases h2 : s2.user_token with
    | none => simp [deleteTask, buildCalendarService_none s2 now h2]
    | some tok2 =>
      cases r <;> simp [deleteTask, buildCalendarService_some s2 tok2 now h2]

/-- C9 witness: a concrete authenticated GET with one listed event. -/
theorem C9_stateless_fresh_fetch_witness :
    (Session.mk (some (TokenData.mk "at" none none)) none).user_token
      = some (TokenData.mk "at" none none) ∧
    ((tasksGet (Session.mk (some (TokenData.mk "at" none none)) none) 0 "now"
        (.ok [GEvent.mk (some "a") none (some "2025-03-10T04:00:00Z") "id1"])).resp
      = Response.tasksPage
          ([GEvent.mk (some "a") none (some "2025-03-10T04:00:00Z") "id1"].map taskView)
          none) :=
  ⟨rfl, (C9_stateless_fresh_fetch _ (TokenData.mk "at" none none) 0 "now"
    [GEvent.mk (some "a") none (some "2025-03-10T04:00:00Z") "id1"] rfl).1⟩

/-- C10: a create request whose due date fails to parse returns the
plain string `Error: <message>` and issues no insert call: the remote
calendar is untouched. -/
theorem C10_parse_failure_no_insert (s : Session) (tok : TokenData) (now : Int)
    (title description due emsg : String) (insRes : Except String Unit)
    (h : s.user_token = some tok) (hp : strptime (normalizeDue due) = .error emsg) :
    (tasksPost s now title description due insRes).resp
      = Response.text ("Error: " ++ emsg) ∧
    (tasksPost s now title description due insRes).calls = [] := by
  simp [tasksPost, buildCalendarService_some s tok now h, hp]

/-- C2: on every due date accepted by the create operation (parse
succeeded; year at least 2, below which Python's `astimezone` raises
before producing any timestamp), the Asia/Kolkata to UTC conversion
preserves the instant: the UTC result denotes the same epoch second as
the localized input, under both the standard +5:30 offset and the
wartime daylight +6:30 offset. -/
theorem C2_conversion_preserves_instant (due : String) (dt : DateTime)
    (hp : strptime (normalizeDue due) = .ok dt) (h2 : 2 ≤ dt.year) :
    instantOf (astimezoneUtc (localizeKolkata dt)) = instantOf (localizeKolkata dt) := by
  have hv : ValidDT dt := strptime_ok_valid _ _ hp
  have hb := kolkataOffset_bounds dt
  have hs := toEpochSec_subMinutes dt (kolkataOffset dt) hv h2 hb.1 hb.2
  simp only [instantOf, astimezoneUtc, localizeKolkata]
  omega

/-- C2 witness: one standard-offset date and one daylight-offset date. -/
theorem C2_conversion_preserves_instant_witness :
    (strptime (normalizeDue "2025-03-09T18:45")
        = .ok (DateTime.mk 2025 3 9 18 45 0) ∧
      2 ≤ (DateTime.mk 2025 3 9 18 45 0).year ∧
      instantOf (astimezoneUtc (localizeKolkata (DateTime.mk 2025 3 9 18 45 0)))
        = instantOf (localizeKolkata (DateTime.mk 2025 3 9 18 45 0))) ∧
    (strptime (normalizeDue "1943-06-15T12:00")
        = .ok (DateTime.mk 1943 6 15 12 0 0) ∧
      2 ≤ (DateTime.mk 1943 6 15 12 0 0).year ∧
      kolkataOffset (DateTime.mk 1943 6 15 12 0 0) = 390 ∧
      instantOf (astimezoneUtc (localizeKolkata (DateTime.mk 1943 6 15 12 0 0)))
        = instantOf (localizeKolkata (DateTime.mk 1943 6 15 12 0 0))) := by
  refine ⟨⟨rfl, by norm_num, ?_⟩, ⟨rfl, by norm_num, by decide, ?_⟩⟩
  · exact C2_conversion_preserves_instant "2025-03-09T18:45"
      (DateTime.mk 2025 3 9 18 45 0) rfl (by norm_num)
  · exact C2_conversion_preserves_instant "1943-06-15T12:00"
      (DateTime.mk 1943 6 15 12 0 0) rfl (by norm_num)

/-- C5: the code's behaviour on a session whose stored token is
expired by its own `expires_at` metadata (500, against current time
1000) and carries a refresh token: `build_calendar_service` constructs
the credential without ever passing that expiry along, the `expired`
check therefore stays false, no refresh call happens, and the list
call is issued with the stale credential. -/
theorem C5_expired_token_never_refreshed :
    (∃ e, (TokenData.mk "stale" (some "rt") (some 500)).expires_at = some e ∧ e ≤ 1000) ∧
    buildCalendarService
        (Session.mk (some (TokenData.mk "stale" (some "rt") (some 500))) none) 1000
      = (some { credentials :=
          { token := "stale", refresh_token := some "rt", expiry := none } }, []) ∧
    (tasksGet (Session.mk (some (TokenData.mk "stale" (some "rt") (some 500))) none)
        1000 "nowIso" (.ok [])).calls
      = [RemoteCall.list "primary" "nowIso" 10 true "startTime"] ∧
    RemoteCall.refresh ∉
      (tasksGet (Session.mk (some (TokenData.mk "stale" (some "rt") (some 500))) none)
        1000 "nowIso" (.ok [])).calls := by
  refine ⟨⟨500, rfl, by norm_num⟩, rfl, rfl, by decide⟩

/-- C8 counterexample: a failing remote delete is caught, but its
message is neither returned as a plain-text body nor substituted into
the task page's message slot — the handler answers with a redirect
that only carries the message in its query string. -/
theorem C8_delete_failure_not_surfaced :
    (deleteTask (Session.mk (some (TokenData.mk "at" none none)) none) 0 "ev1"
        (.error "boom")).resp
      = Response.redirect ("/tasks?message=" ++ "Error deleting task: boom") ∧
    ¬ messageSurfaced
        ((deleteTask (Session.mk (some (TokenData.mk "at" none none)) none) 0 "ev1"
          (.error "boom")).resp) "boom" := by
  refine ⟨rfl, ?_⟩
  intro hc
  rcases hc with ⟨b, hb, _⟩ | ⟨ts, m, hm, _⟩
  · exact absurd hb (by simp [deleteTask, buildCalendarService, Credentials.expired])
  · exact absurd hm (by simp [deleteTask, buildCalendarService, Credentials.expired])

/-- C8 amended: every remote failure is caught and none escapes as an
exception; a list failure is surfaced as a plain-text error body and
an insert failure in the task page's message slot, while a delete
failure's message only lands in the query string of a redirect to
`/tasks` — a page whose GET rendering (shown last) never reads that
query parameter and renders its message slot empty. -/
theorem C8_failures_caught_and_reported (s : Session) (tok : TokenData) (now : Int)
    (nowIso tid title description due e : String) (dt : DateTime)
    (h : s.user_token = some tok) (hp : strptime (normalizeDue due) = .ok dt) :
    (tasksGet s now nowIso (.error e)).resp
      = Response.text ("Error fetching tasks: " ++ e) ∧
    messageSurfaced ((tasksGet s now nowIso (.error e)).resp) e ∧
    (tasksPost s now title description due (.error e)).resp
      = Response.tasksPage [] (some ("Error adding task: " ++ e)) ∧
    messageSurfaced ((tasksPost s now title description due (.error e)).resp) e ∧
    (deleteTask s now tid (.error e)).resp
      = Response.redirect ("/tasks?message=" ++ ("Error deleting task: " ++ e)) ∧
    (∀ evs, (tasksGet s now nowIso (.ok evs)).resp
      = Response.tasksPage (evs.map taskView) none) := by
  have hget : (tasksGet s now nowIso (.error e)).resp
      = Response.text ("Error fetching tasks: " ++ e) := by
    simp [tasksGet, buildCalendarService_some s tok now h]
  have hpost : (tasksPost s now title description due (.error e)).resp
      = Response.tasksPage [] (some ("Error adding task: " ++ e)) := by
    simp [tasksPost, buildCalendarService_some s tok now h, hp]
  have hsuf : ∀ pre : String, e.data <:+: (pre ++ e).data := by
    intro pre
    rw [String.data_append]
    exact (List.suffix_append pre.data e.data).isInfix
  refine ⟨hget, Or.inl ⟨_, hget, hsuf _⟩, hpost, Or.inr ⟨_, _, hpost, hsuf _⟩, ?_, ?_⟩
  · simp [deleteTask, buildCalendarService_some s tok now h]
  · intro evs
    simp [tasksGet, buildCalendarService_some s tok now h]

/-- C8 amended witness: the three failure renderings at concrete inputs. -/
theorem C8_failures_caught_and_reported_witness :
    (Session.mk (some (TokenData.mk "at" none none)) none).user_token
      = some (TokenData.mk "at" none none) ∧
    strptime (normalizeDue "2025-03-09T18:45")
      = .ok (DateTime.mk 2025 3 9 18 45 0) ∧
    (tasksGet (Session.mk (some (TokenData.mk "at" none none)) none) 0 "now"
        (.error "boom")).resp
      = Response.text ("Error fetching tasks: " ++ "boom") ∧
    (tasksPost (Session.mk (some (TokenData.mk "at" none none)) none) 0 "t" "d"
        "2025-03-09T18:45" (.error "boom")).resp
      = Response.tasksPage [] (some ("Error adding task: " ++ "boom")) ∧
    (deleteTask (Session.mk (some (TokenData.mk "at" none none)) none) 0 "ev1"
        (.error "boom")).resp
      = Response.redirect ("/tasks?message=" ++ ("Error deleting task: " ++ "boom")) := by
  have h := C8_failures_caught_and_reported
    (Session.mk (some (TokenData.mk "at" none none)) none) (TokenData.mk "at" none none)
    0 "now" "ev1" "t" "d" "2025-03-09T18:45" "boom" (DateTime.mk 2025 3 9 18 45 0)
    rfl rfl
  exact ⟨rfl, rfl, h.1, h.2.2.1, h.2.2.2.2.1⟩

/-- C10 witness: a concrete unparsable due date. -/
theorem C10_parse_failure_no_insert_witness :
    (Session.mk (some (TokenData.mk "at" none none)) none).user_token
      = some (TokenData.mk "at" none none) ∧
    strptime (normalizeDue "garbage")
      = .error "time data garbage does not match format %Y-%m-%dT%H:%M:%S" ∧
    (tasksPost (Session.mk (some (TokenData.mk "at" none none)) none) 0 "t" "d"
        "garbage" (.ok ())).resp
      = Response.text
          ("Error: " ++ "time data garbage does not match format %Y-%m-%dT%H:%M:%S") ∧
    (tasksPost (Session.mk (some (TokenData.mk "at" none none)) none) 0 "t" "d"
        "garbage" (.ok ())).calls = [] := by
  refine ⟨rfl, rfl, ?_⟩
  exact C10_parse_failure_no_insert _ (TokenData.mk "at" none none) 0 "t" "d"
    "garbage" "time data garbage does not match format %Y-%m-%dT%H:%M:%S"
    (.ok ()) rfl rfl

end OAuthTasks
